import Mathlib

/-!
# Verification of the Full Metal Planet core against its specification

Shallow embedding of the board/coordinate/pathfinding subsystem and the
turn/AP/tide state machine of the repository (files `src/board.py`,
`src/b_01.py`, `src/utils/pathfinding.py`, `src/tides.py`, `src/player.py`,
`src/units.py`, `src/game_state.py`, `src/commands.py`).

Modelling conventions:
* Python `int` is `Int`; Python `x // y` is `Int.fdiv x y` (floor division)
  and `x & 1` is `Int.emod x 2` (Python's `&` on a negative int uses
  two's-complement semantics, so `x & 1 = x mod 2` with a non-negative
  result, which is exactly `Int.emod x 2`).
* Python dicts keyed by coordinates or strings are association lists; a
  `dict[k] = v` store is modelled by consing `(k, v)` in front (lookup finds
  the newest binding, exactly like the dict), except where the iteration
  order of the dict is observable, in which case an in-place `map` is used.
* Functions that can raise for a missing key return `Option`.
* Rendering-only attributes (pixel centres, polygon points, colors) are
  out of scope per the specification and are not part of the state.
-/

namespace FMP

/-- A board coordinate `(col, row)` in the odd-q offset scheme. -/
abbrev Coord := Int × Int

/-! ## Coordinate conversions (`src/board.py` lines 194–206, `src/b_01.py` lines 15–25) -/

/-- `Board._oddq_to_axial` from `src/board.py`:
`q = col`, `r = row - (col + (col & 1)) // 2` (odd-q, odd columns shifted up). -/
def oddq_to_axial (col row : Int) : Int × Int :=
  (col, row - (col + col.emod 2).fdiv 2)

/-- `Board._axial_to_oddq` from `src/board.py`:
`col = q`, `row = r + (q + (q & 1)) // 2`. -/
def axial_to_oddq (q_axial r_axial : Int) : Int × Int :=
  (q_axial, r_axial + (q_axial + q_axial.emod 2).fdiv 2)

/-- `axial_to_cube` from `src/b_01.py`: `x = q`, `z = r - ((q - (q & 1)) // 2)`,
`y = -x - z`. -/
def axial_to_cube (q r : Int) : Int × Int × Int :=
  let x := q
  let z := r - (q - q.emod 2).fdiv 2
  (x, -x - z, z)

/-- `cube_to_axial` from `src/b_01.py`: `q = x`, `r = z + ((x - (x & 1)) // 2)`. -/
def cube_to_axial (x _y z : Int) : Int × Int :=
  (x, z + (x - x.emod 2).fdiv 2)

/-! ## Board data model (`src/board.py`) -/

/-- A hex of the board (`class Hex` in `src/board.py`).  The derived pixel
attributes (`center_x`, `center_y`, `points`) are rendering-only and out of
scope. -/
structure Hex where
  col : Int
  row : Int
  terrain : String
  ore : Bool := false
  zone_id : Option String := none
  name : Option String := none
  victory_points : Int := 0
deriving DecidableEq

/-- `Board.AXIAL_DIRECTIONS` from `src/board.py` (N, NE, SE, S, SW, NW). -/
def AXIAL_DIRECTIONS : List (Int × Int) :=
  [(0, -1), (1, -1), (1, 0), (0, 1), (-1, 1), (-1, 0)]

/-- The board: the dict `self.hexes` keyed by `(col, row)` is an association
list with unique keys. -/
structure Board where
  hexes : List (Coord × Hex)
deriving DecidableEq

/-- `Board.get_hex`: `self.hexes.get((col, row))`. -/
def Board.get_hex (b : Board) (col row : Int) : Option Hex :=
  (b.hexes.find? (fun p => p.1 = (col, row))).map (·.2)

/-- `Board.get_neighbors` from `src/board.py`: returns the neighbouring
hexes present on the board, in the fixed `AXIAL_DIRECTIONS` order; returns
`[]` when the base hex itself is not on the board. -/
def Board.get_neighbors (b : Board) (start_col start_row : Int) : List Hex :=
  match b.get_hex start_col start_row with
  | none => []
  | some _ =>
    let qr := oddq_to_axial start_col start_row
    AXIAL_DIRECTIONS.filterMap (fun d =>
      let n := axial_to_oddq (qr.1 + d.1) (qr.2 + d.2)
      b.get_hex n.1 n.2)

/-- `Board.effective_terrain` from `src/board.py` lines 355–376.  The Python
function receives a possibly-`None` hex (returning `"void"` in that case),
hence the `Option Hex` argument. -/
def Board.effective_terrain (hex_obj : Option Hex) (tide_type : String) : String :=
  match hex_obj with
  | none => "void"
  | some h =>
    if h.terrain = "swamp" then
      if tide_type = "low" then "plain"
      else if tide_type = "high" then "sea"
      else h.terrain
    else if h.terrain = "reef" then
      if tide_type = "low" then "plain"
      else if tide_type = "high" then "sea"
      else h.terrain
    else h.terrain

/-- The pod loop body of `Board.place_freighter` (`src/board.py` lines
252–262): for each direction index, if it is within `0 ≤ i < 6` append the
converted pod coordinate, otherwise log a warning and skip the pod. -/
def place_pods (bubble_q bubble_r : Int) : List Int → List Coord
  | [] => []
  | i :: rest =>
    if 0 ≤ i ∧ i < 6 then
      match AXIAL_DIRECTIONS.get? i.toNat with
      | some d => axial_to_oddq (bubble_q + d.1) (bubble_r + d.2) :: place_pods bubble_q bubble_r rest
      | none => place_pods bubble_q bubble_r rest
    else place_pods bubble_q bubble_r rest

/-- `Board.place_freighter` from `src/board.py` lines 233–263: returns the
bubble coordinate followed by the pods of the first (at most) three valid
direction indices; an out-of-range index only logs a warning and is skipped,
and a list that is not of length 3 only logs a warning. -/
def Board.place_freighter (_b : Board) (center_col center_row : Int)
    (pod_axial_direction_indices : List Int) : List Coord :=
  let bubble : Coord := (center_col, center_row)
  let qr := oddq_to_axial center_col center_row
  bubble :: place_pods qr.1 qr.2 (pod_axial_direction_indices.take 3)

/-! ## The second board variant (`src/b_01.py`) -/

namespace B01

/-- `ANGLE_TO_INDEX` dict inside `Board.place_freighter` of `src/b_01.py`;
`none` models the `KeyError` raised by `ANGLE_TO_INDEX[ang]` for a key that
is not present. -/
def ANGLE_TO_INDEX (ang : Int) : Option Nat :=
  if ang = 0 then some 0
  else if ang = 60 then some 1
  else if ang = 120 then some 2
  else if ang = 180 then some 3
  else if ang = 240 then some 4
  else if ang = 300 then some 5
  else none

/-- `EVEN_Q_OFFSETS` from `src/b_01.py` (bubble column even). -/
def EVEN_Q_OFFSETS : List (Int × Int) :=
  [(1, 0), (0, -1), (-1, -1), (-1, 0), (-1, 1), (0, 1)]

/-- `ODD_Q_OFFSETS` from `src/b_01.py` (bubble column odd). -/
def ODD_Q_OFFSETS : List (Int × Int) :=
  [(1, 0), (1, -1), (0, -1), (-1, 0), (0, 1), (1, 1)]

/-- The pod loop of `Board.place_freighter` in `src/b_01.py`: each angle is
looked up in `ANGLE_TO_INDEX`; a missing key raises `KeyError`, modelled as
`none` for the whole call. -/
def place_pods_angles (bubble_q bubble_r : Int) (offsets : List (Int × Int)) :
    List Int → Option (List Coord)
  | [] => some []
  | ang :: rest =>
    match ANGLE_TO_INDEX ang with
    | none => none
    | some idx =>
      match offsets.get? idx with
      | none => none
      | some d =>
        (place_pods_angles bubble_q bubble_r offsets rest).map
          (fun cs => (bubble_q + d.1, bubble_r + d.2) :: cs)

/-- `Board.place_freighter` from `src/b_01.py` lines 113–145: returns
`[(bubble), pod1, pod2, pod3]` for the given angles; `none` models the
`KeyError` raised when an angle is not one of the six valid values. -/
def place_freighter (bubble_q bubble_r : Int) (pod_angles : List Int) :
    Option (List Coord) :=
  let offsets := if bubble_q.emod 2 = 0 then EVEN_Q_OFFSETS else ODD_Q_OFFSETS
  (place_pods_angles bubble_q bubble_r offsets pod_angles).map
    (fun cs => (bubble_q, bubble_r) :: cs)

end B01

/-! ## Player AP ledger (`src/player.py`) -/

/-- `MAX_BANKED_AP` from `src/player.py`. -/
def MAX_BANKED_AP : Int := 10

/-- The `Player` dataclass from `src/player.py`.  The unit lists hold object
references in Python; references are modelled as unit ids. -/
structure Player where
  id : String
  name : String
  color : String
  current_turn_base_ap : Int := 0
  action_points_spent_this_turn : Int := 0
  action_points_banked : Int := 0
  banked_ap_at_start_of_actions : Int := 0
  total_ap_for_spending_this_turn : Int := 0
  freighter_landed : Bool := false
  ore_in_freighter : Int := 0
  units_on_board : List String := []
  units_in_freighter : List String := []
  initial_unit_pool : List (String × Int) := []
  has_weather_hen_operational : Bool := false
deriving DecidableEq

/-- `Player.prepare_for_new_turn` from `src/player.py`. -/
def Player.prepare_for_new_turn (p : Player) (base_ap_from_turn_definition : Int) : Player :=
  { p with
    current_turn_base_ap := base_ap_from_turn_definition
    action_points_spent_this_turn := 0
    banked_ap_at_start_of_actions := p.action_points_banked
    total_ap_for_spending_this_turn := base_ap_from_turn_definition + p.action_points_banked }

/-- `Player.can_spend_ap` from `src/player.py`. -/
def Player.can_spend_ap (p : Player) (cost : Int) : Bool :=
  p.total_ap_for_spending_this_turn - p.action_points_spent_this_turn ≥ cost

/-- `Player.spend_ap` from `src/player.py`: returns the success flag and the
resulting player state (a failed spend only logs and leaves the state as-is). -/
def Player.spend_ap (p : Player) (cost : Int) : Bool × Player :=
  if p.can_spend_ap cost then
    (true, { p with action_points_spent_this_turn := p.action_points_spent_this_turn + cost })
  else
    (false, p)

/-- `Player.end_turn_banking_ap` from `src/player.py`. -/
def Player.end_turn_banking_ap (p : Player) : Player :=
  let unspent_ap_from_total_pool :=
    p.total_ap_for_spending_this_turn - p.action_points_spent_this_turn
  let newly_banked_this_round : Int :=
    if unspent_ap_from_total_pool ≥ 10 then 10
    else if unspent_ap_from_total_pool ≥ 5 then 5
    else 0
  { p with action_points_banked := min newly_banked_this_round MAX_BANKED_AP }

/-! ## Tide deck (`src/tides.py`) -/

/-- `TideCard` dataclass; equality/hashing is by `id` in Python, which the
deck code uses only through explicit `id` comparisons (modelled likewise). -/
structure TideCard where
  id : String
  type : String
  name : String
deriving DecidableEq

/-- `TideDeck` state.  The rule dicts are modelled field-by-field:
`setup_rules.get(k, default)` becomes an `Option` field read with `getD`;
`fixed_turns` (a dict from turn-number strings to tide types, with unique
keys) is an association list keyed by the turn number; `reshuffle_rules`
contributes its `turns` list. -/
structure TideDeck where
  all_cards_definitions : List TideCard
  future_deck_size : Option Nat := none
  setup_deck_turn : Option Int := none
  last_fixed_turn : Option Int := none
  fixed_turns : List (Int × String) := []
  reshuffle_turns : List Int := []
  future_deck : List TideCard := []
  reserve_pile : List TideCard := []
  discard_pile : List TideCard := []
  current_tide_card : Option TideCard := none
deriving DecidableEq

/-- `TideDeck._find_card_by_type`. -/
def TideDeck.find_card_by_type (d : TideDeck) (card_type : String) : Option TideCard :=
  d.all_cards_definitions.find? (fun c => c.type = card_type)

/-- `TideDeck.setup_deck_for_play`.  `random.shuffle` is modelled by the
explicit permutation argument `shuffle` (the theorems below hold for every
choice of it). -/
def TideDeck.setup_deck_for_play (shuffle : List TideCard → List TideCard)
    (d : TideDeck) : TideDeck :=
  if d.all_cards_definitions = [] then d
  else
    let shuffled_cards := shuffle d.all_cards_definitions
    let n := min (d.future_deck_size.getD 9) shuffled_cards.length
    { d with
      future_deck := shuffled_cards.take n
      reserve_pile := shuffled_cards.drop n
      discard_pile := [] }

/-- `TideDeck.get_tide_for_turn`: on a fixed turn, return a representative
card of the configured type without touching any pile; otherwise pop the
front of the future deck (`none` with an error log when it is empty).
Returns the drawn card together with the updated deck. -/
def TideDeck.get_tide_for_turn (d : TideDeck) (turn_number : Int) :
    Option TideCard × TideDeck :=
  match (d.fixed_turns.find? (fun p => p.1 = turn_number)).map (·.2) with
  | some tide_type => (d.find_card_by_type tide_type, d)
  | none =>
    match d.future_deck with
    | [] => (none, d)
    | c :: rest => (some c, { d with future_deck := rest })

/-- `TideDeck.reshuffle`: shuffle every definition except the current card
(excluded by id), stack the configured count as the new future deck, the
remainder as reserve, and clear the discard pile. -/
def TideDeck.reshuffle (shuffle : List TideCard → List TideCard)
    (d : TideDeck) : TideDeck :=
  if d.all_cards_definitions = [] then d
  else
    let cards_to_shuffle :=
      match d.current_tide_card with
      | some c => d.all_cards_definitions.filter (fun card => card.id ≠ c.id)
      | none => d.all_cards_definitions
    let shuffled := shuffle cards_to_shuffle
    let n := min (d.future_deck_size.getD 9) shuffled.length
    { d with
      future_deck := shuffled.take n
      reserve_pile := shuffled.drop n
      discard_pile := [] }

/-- `TideDeck.advance_turn_tide` from `src/tides.py` lines 85–133:
initial setup on the setup turn when the future deck is still empty, then
discard of the previous turn's card when that turn was past the last fixed
turn, then the draw for the current turn, then (from the setup turn on) the
turn-triggered reshuffle and the reserve→future refill. -/
def TideDeck.advance_turn_tide (shuffle : List TideCard → List TideCard)
    (d : TideDeck) (turn_number : Int) : TideDeck :=
  let setup_turn := d.setup_deck_turn.getD 3
  let last_fixed := d.last_fixed_turn.getD 2
  let d1 :=
    if turn_number = setup_turn ∧ d.future_deck = [] then
      d.setup_deck_for_play shuffle
    else d
  let d2 :=
    match d1.current_tide_card with
    | some c =>
      if turn_number - 1 > last_fixed then
        { d1 with discard_pile := d1.discard_pile ++ [c] }
      else d1
    | none => d1
  let drawn := d2.get_tide_for_turn turn_number
  let d3 := { drawn.2 with current_tide_card := drawn.1 }
  if turn_number ≥ setup_turn then
    let d4 :=
      if d3.reshuffle_turns.contains turn_number then d3.reshuffle shuffle else d3
    match d4.future_deck, d4.reserve_pile with
    | [], r :: rs => { d4 with future_deck := [r], reserve_pile := rs }
    | _, _ => d4
  else d3

/-! ## Unit types and units (`src/units.py`) -/

/-- `UnitTurret` dataclass. -/
structure UnitTurret where
  count : Int
  range : Int
deriving DecidableEq

/-- `UnitType` dataclass (the fields the core game logic reads; `pod_shapes`
and `footprint` are loader data never consulted by the embedded operations). -/
structure UnitType where
  id : String
  name : String := ""
  category : String := ""
  category_type : String := ""
  can_enter : List String := []
  tide_sensitive : Bool := false
  turrets : Option UnitTurret := none
  cargo_slots : Int := 0
  indestructible : Bool := false
deriving DecidableEq

/-- The `Unit` dataclass.  `cargo` holds nested units, so `Unit` is a nested
inductive; `is_neutralised` is the attribute that `apply_tide_effects`
ensures exists on every unit (absent attribute ≘ the default `false`). -/
inductive Unit where
  | mk
      (unit_id : String)
      (unit_type_id : String)
      (player_id : String)
      (col : Int)
      (row : Int)
      (second_hex_col : Option Int)
      (second_hex_row : Option Int)
      (cargo : List Unit)
      (is_in_freighter : Bool)
      (is_neutralised : Bool)

/-- Field accessor. -/
def Unit.unit_id : Unit → String
  | .mk v _ _ _ _ _ _ _ _ _ => v

/-- Field accessor. -/
def Unit.unit_type_id : Unit → String
  | .mk _ v _ _ _ _ _ _ _ _ => v

/-- Field accessor. -/
def Unit.player_id : Unit → String
  | .mk _ _ v _ _ _ _ _ _ _ => v

/-- Field accessor. -/
def Unit.col : Unit → Int
  | .mk _ _ _ v _ _ _ _ _ _ => v

/-- Field accessor. -/
def Unit.row : Unit → Int
  | .mk _ _ _ _ v _ _ _ _ _ => v

/-- Field accessor. -/
def Unit.second_hex_col : Unit → Option Int
  | .mk _ _ _ _ _ v _ _ _ _ => v

/-- Field accessor. -/
def Unit.second_hex_row : Unit → Option Int
  | .mk _ _ _ _ _ _ v _ _ _ => v

/-- Field accessor. -/
def Unit.cargo : Unit → List Unit
  | .mk _ _ _ _ _ _ _ v _ _ => v

/-- Field accessor. -/
def Unit.is_in_freighter : Unit → Bool
  | .mk _ _ _ _ _ _ _ _ v _ => v

/-- Field accessor. -/
def Unit.is_neutralised : Unit → Bool
  | .mk _ _ _ _ _ _ _ _ _ v => v

/-- The mutation `unit.col = c; unit.row = r` (all other fields kept). -/
def Unit.withColRow (u : Unit) (c r : Int) : Unit :=
  match u with
  | .mk uid tid pid _ _ sc sr cg fr n => .mk uid tid pid c r sc sr cg fr n

/-- The mutation `setattr(unit, 'is_neutralised', b)` (all other fields kept). -/
def Unit.withNeutralised (u : Unit) (b : Bool) : Unit :=
  match u with
  | .mk uid tid pid c r sc sr cg fr _ => .mk uid tid pid c r sc sr cg fr b

/-! ## Game state (`src/game_state.py`) and tide effects (`src/board.py`) -/

/-- String-keyed dict lookup. -/
def lookupS {α : Type} (m : List (String × α)) (k : String) : Option α :=
  (m.find? (fun p => p.1 = k)).map (·.2)

/-- The `GameState` dataclass: the root aggregate.  Python passes `Unit` and
`Player` objects by reference; the unit dict is the authority and the player
lists reference units by id. -/
structure GameState where
  board : Board
  tide_state : String
  units_by_id : List (String × Unit)
  players : List Player
  unit_types_data : List (String × UnitType)
  turn_number : Int := 1

/-- `GameState.get_unit`: the Python method `assert`s that the unit exists
(a fatal invariant violation otherwise), so the embedding returns `Option`
and callers are analysed under the `isSome` precondition. -/
def GameState.get_unit (s : GameState) (unit_id : String) : Option Unit :=
  lookupS s.units_by_id unit_id

/-- The per-unit body of `Board.apply_tide_effects` (`src/board.py` lines
391–417): an attack boat standing on a board hex has its `is_neutralised`
flag recomputed to `stored terrain = swamp ∧ tide = high`; an attack boat
whose coordinates do not resolve to a hex, and every unit of another type,
is left as it is (the `hasattr` initialisation only materialises the default
`false`, which every embedded unit already carries). -/
def tide_effect_unit (b : Board) (tide_state : String) (u : Unit) : Unit :=
  if u.unit_type_id = "attack_boat" then
    match b.get_hex u.col u.row with
    | some current_hex =>
      u.withNeutralised
        (if current_hex.terrain = "swamp" ∧ tide_state = "high" then true else false)
    | none => u
  else u

/-- `Board.apply_tide_effects` from `src/board.py` lines 378–417: iterates
over all units of the game state, updating them in place. -/
def Board.apply_tide_effects (b : Board) (game_state : GameState) : GameState :=
  { game_state with
    units_by_id :=
      game_state.units_by_id.map
        (fun p => (p.1, tide_effect_unit b game_state.tide_state p.2)) }

/-! ## A* pathfinding (`src/utils/pathfinding.py`) -/

/-- `_heuristic` from `src/utils/pathfinding.py`: the axial (hex) distance
`(|dq| + |dq + dr| + |dr|) // 2` between two offset coordinates (the sum is
always even, so the floor division is exact). -/
def _heuristic (a_col a_row b_col b_row : Int) (_board : Board) : Nat :=
  let aqr := oddq_to_axial a_col a_row
  let bqr := oddq_to_axial b_col b_row
  ((aqr.1 - bqr.1).natAbs + (aqr.1 + aqr.2 - bqr.1 - bqr.2).natAbs
    + (aqr.2 - bqr.2).natAbs) / 2

/-- A `heapq` entry `(priority, (col, row))`.  Python compares these tuples
lexicographically. -/
abbrev AStarEntry := Nat × Coord

/-- The strict lexicographic order Python uses on `(priority, (col, row))`
tuples. -/
def entryLt (e1 e2 : AStarEntry) : Bool :=
  e1.1 < e2.1 ∨ (e1.1 = e2.1 ∧ (e1.2.1 < e2.2.1 ∨ (e1.2.1 = e2.2.1 ∧ e1.2.2 < e2.2.2)))

/-- The least entry of a non-empty list under `entryLt`. -/
def heapMinEntry (e : AStarEntry) : List AStarEntry → AStarEntry
  | [] => e
  | e' :: rest => if entryLt e' (heapMinEntry e rest) then e' else heapMinEntry e rest

/-- `heapq.heappop` on the open set.  The algorithm pushes an entry only when
no entry with the same coordinate is in the open set, so all entries are
pairwise distinct tuples and the binary heap is observationally just
"remove the least element under the tuple order": which element `heappop`
returns depends only on the multiset of entries. -/
def heappop : List AStarEntry → Option (AStarEntry × List AStarEntry)
  | [] => none
  | e :: rest =>
    let m := heapMinEntry e rest
    some (m, (e :: rest).erase m)

/-- Coordinate-keyed dict lookup (`g_score`, `f_score`, `came_from`). -/
def lookupC {α : Type} (m : List (Coord × α)) (k : Coord) : Option α :=
  (m.find? (fun p => p.1 = k)).map (·.2)

/-- Coordinate-keyed dict store: the new binding shadows any older one. -/
def insertC {α : Type} (m : List (Coord × α)) (k : Coord) (v : α) : List (Coord × α) :=
  (k, v) :: m

/-- The mutable state of the A* loop. -/
structure AStarState where
  open_set : List AStarEntry
  came_from : List (Coord × Coord)
  g_score : List (Coord × Nat)
  f_score : List (Coord × Nat)

/-- The body of the `for neighbor_hex_obj in neighbors_hex_objects` loop of
`a_star_pathfinding`: skip neighbours whose effective terrain the unit
cannot enter; on a strict `g` improvement record `came_from`, `g_score` and
`f_score`, and push the neighbour unless an entry for it is already in the
open set.  (`g_score[current_coords]` is always present when a node is
expanded — the start node is seeded and every pushed node is scored — so the
`getD 0` default is never taken.) -/
def expand_neighbor (board : Board) (unit_type : UnitType) (tide_type : String)
    (goal : Coord) (cur : Coord) (st : AStarState) (neighbor_hex : Hex) : AStarState :=
  let neighbor_coords : Coord := (neighbor_hex.col, neighbor_hex.row)
  let effective_terrain := Board.effective_terrain (some neighbor_hex) tide_type
  if effective_terrain ∈ unit_type.can_enter then
    let tentative_g_score := (lookupC st.g_score cur).getD 0 + 1
    let improves : Bool :=
      match lookupC st.g_score neighbor_coords with
      | some old => tentative_g_score < old
      | none => true
    if improves then
      let f := tentative_g_score + _heuristic neighbor_hex.col neighbor_hex.row goal.1 goal.2 board
      let st' : AStarState :=
        { st with
          came_from := insertC st.came_from neighbor_coords cur
          g_score := insertC st.g_score neighbor_coords tentative_g_score
          f_score := insertC st.f_score neighbor_coords f }
      if st'.open_set.any (fun e => e.2 = neighbor_coords) then st'
      else { st' with open_set := (f, neighbor_coords) :: st'.open_set }
    else st
  else st

/-- The path-reconstruction loop of `a_star_pathfinding`: follow `came_from`
from the goal, then append the start node and reverse.  The chain is finite
because `g` strictly decreases along `came_from`; the fuel (one step per
`came_from` binding plus one) therefore always suffices. -/
def reconstruct_path (came_from : List (Coord × Coord)) (start : Coord) :
    Nat → Coord → List Coord → List Coord
  | 0, _, acc => start :: acc
  | Nat.succ fuel, cur, acc =>
    match lookupC came_from cur with
    | some prev => reconstruct_path came_from start fuel prev (cur :: acc)
    | none => start :: acc

/-- The `while open_set:` loop of `a_star_pathfinding`, with explicit fuel
(each iteration pops one heap entry; the number of pushes is finite, see
`a_star_pathfinding` for the bound). -/
def astar_loop (board : Board) (unit_type : UnitType) (tide_type : String)
    (start goal : Coord) : Nat → AStarState → Option (List Coord)
  | 0, _ => none
  | Nat.succ fuel, st =>
    match heappop st.open_set with
    | none => none
    | some (e, rest) =>
      let current_coords := e.2
      if current_coords = goal then
        some (reconstruct_path st.came_from start (st.came_from.length + 1) current_coords [])
      else
        match board.get_hex current_coords.1 current_coords.2 with
        | none => astar_loop board unit_type tide_type start goal fuel { st with open_set := rest }
        | some current_hex =>
          let neighbors := board.get_neighbors current_hex.col current_hex.row
          let st' := neighbors.foldl
            (expand_neighbor board unit_type tide_type goal current_coords)
            { st with open_set := rest }
          astar_loop board unit_type tide_type start goal fuel st'

/-- `a_star_pathfinding` from `src/utils/pathfinding.py` lines 17–82.
The fuel `(V + 2)² + 2` (V = number of board hexes) dominates the loop's
iteration count: every iteration pops an entry, every push accompanies a
strict decrease of some node's `g`-value, every `g`-value is bounded by the
number of scored nodes (at most `V + 1`), and at most `V + 1` nodes are ever
scored. -/
def a_star_pathfinding (board : Board) (start_coords goal_coords : Coord)
    (unit_type : UnitType) (tide_type : String) : Option (List Coord) :=
  let st0 : AStarState :=
    { open_set := [(0, start_coords)]
      came_from := []
      g_score := [(start_coords, 0)]
      f_score := [(start_coords,
        _heuristic start_coords.1 start_coords.2 goal_coords.1 goal_coords.2 board)] }
  astar_loop board unit_type tide_type start_coords goal_coords
    ((board.hexes.length + 2) * (board.hexes.length + 2) + 2) st0

/-- One traversable step in the sense of the A* expansion rule: `c` is one
of the board neighbours of `a` (per `get_neighbors`) whose effective terrain
under the tide is in the unit's `can_enter` list. -/
def traversable_step (b : Board) (ut : UnitType) (tide : String) (a c : Coord) : Bool :=
  (b.get_neighbors a.1 a.2).any
    (fun hx =>
      decide ((hx.col, hx.row) = c ∧ Board.effective_terrain (some hx) tide ∈ ut.can_enter))

/-- A coordinate sequence is a valid traversable path when every consecutive
pair is a `traversable_step`. -/
def is_valid_path (b : Board) (ut : UnitType) (tide : String) : List Coord → Bool
  | [] => true
  | [_] => true
  | a :: c :: rest => traversable_step b ut tide a c && is_valid_path b ut tide (c :: rest)

/-! ## Concrete board exercising the open-set membership check of A* -/

/-- An 11-hex all-plain board.  Hex distance from `(2, 5)` to `(0, 0)` is
6 and the board contains a 6-step chain between them, but a side chain
reaches the hex `(1, 3)` first with a worse `g`, leaving it in the open
set with a stale (too high) priority; when its `g` later improves, the
membership check suppresses the re-push, so the improved node is expanded
too late and A* terminates with a 7-step path. -/
def staleBoard : Board := ⟨[
  ((2, 5), { col := 2, row := 5, terrain := "plain" }),
  ((2, 4), { col := 2, row := 4, terrain := "plain" }),
  ((2, 3), { col := 2, row := 3, terrain := "plain" }),
  ((1, 5), { col := 1, row := 5, terrain := "plain" }),
  ((0, 4), { col := 0, row := 4, terrain := "plain" }),
  ((0, 3), { col := 0, row := 3, terrain := "plain" }),
  ((0, 2), { col := 0, row := 2, terrain := "plain" }),
  ((1, 3), { col := 1, row := 3, terrain := "plain" }),
  ((1, 2), { col := 1, row := 2, terrain := "plain" }),
  ((1, 1), { col := 1, row := 1, terrain := "plain" }),
  ((0, 0), { col := 0, row := 0, terrain := "plain" })]⟩

/-- A unit type that can enter plains (every hex of `staleBoard` is plain,
so the whole board is a uniform-cost open grid for it). -/
def plainUnit : UnitType := { id := "tank", can_enter := ["plain"] }

/-- The path `a_star_pathfinding` actually returns on `staleBoard` from
`(2, 5)` to `(0, 0)` at mid tide: 8 coordinates, i.e. 7 steps. -/
def staleReturnedPath : List Coord :=
  [(2, 5), (1, 5), (0, 4), (0, 3), (0, 2), (1, 2), (1, 1), (0, 0)]

/-- A 6-step traversable chain on `staleBoard` from `(2, 5)` to `(0, 0)`,
realising the hex distance 6. -/
def staleShortPath : List Coord :=
  [(2, 5), (2, 4), (2, 3), (1, 3), (1, 2), (1, 1), (0, 0)]

/-! ## Move command (`src/commands.py`) -/

/-- The `MockUnitType` fallback inside `MoveCommand._calculate_path`
(`src/commands.py` lines 76–86), used when the state has no unit-type entry
for the unit: tanks may enter every terrain, anything else only plains. -/
def mock_unit_type (unit_type_id : String) : UnitType :=
  if unit_type_id = "tank" then
    { id := unit_type_id, can_enter := ["plain", "swamp", "reef", "mountain", "sea"] }
  else
    { id := unit_type_id, can_enter := ["plain"] }

/-- `MoveCommand` (`src/commands.py`): destination plus the embedded path
cache keyed by `(unit col, unit row, tide, dest col, dest row)`. -/
structure MoveCommand where
  unit_id : String
  dest_col : Int
  dest_row : Int
  cached_path : Option (List Coord) := none
  cached_path_state_tuple : Option (Int × Int × String × Int × Int) := none

/-- `MoveCommand._calculate_path` (`src/commands.py` lines 37–98): returns
the (possibly cached) path together with the command's updated cache.  The
Python code `assert`s (via `GameState.get_unit`) that the unit exists; the
`none` unit case models that fatal branch and is excluded by the theorems'
precondition. -/
def MoveCommand.calculate_path (cmd : MoveCommand) (state : GameState) :
    Option (List Coord) × MoveCommand :=
  match state.get_unit cmd.unit_id with
  | none => (none, cmd)
  | some unit_to_move =>
    let state_tuple_for_cache :=
      (unit_to_move.col, unit_to_move.row, state.tide_state, cmd.dest_col, cmd.dest_row)
    if cmd.cached_path_state_tuple = some state_tuple_for_cache ∧ cmd.cached_path.isSome then
      (cmd.cached_path, cmd)
    else
      let unit_type_def :=
        match lookupS state.unit_types_data unit_to_move.unit_type_id with
        | some t => t
        | none => mock_unit_type unit_to_move.unit_type_id
      let path := a_star_pathfinding state.board (unit_to_move.col, unit_to_move.row)
        (cmd.dest_col, cmd.dest_row) unit_type_def state.tide_state
      (path,
        { cmd with
          cached_path := path
          cached_path_state_tuple := some state_tuple_for_cache })

/-- `MoveCommand.estimate_ap_cost`: number of steps of the path, `none`
modelling the `float('inf')` returned when there is no (non-empty) path. -/
def MoveCommand.estimate_ap_cost (cmd : MoveCommand) (state : GameState) :
    Option Nat × MoveCommand :=
  let r := cmd.calculate_path state
  match r.1 with
  | some p => if p.length > 0 then (some (p.length - 1), r.2) else (none, r.2)
  | none => (none, r.2)

/-- The in-place mutation `unit_to_move.col = final_col; unit_to_move.row =
final_row` of the unit object stored under `unit_id` in the dict. -/
def set_unit_coords (m : List (String × Unit)) (unit_id : String) (c r : Int) :
    List (String × Unit) :=
  m.map (fun p => if p.1 = unit_id then (p.1, p.2.withColRow c r) else p)

/-- `MoveCommand.execute` (`src/commands.py` lines 106–120): relocate the
unit to the path's final coordinate, or do nothing when there is no
(non-empty) path.  Returns the new state together with the command's updated
cache (which lives on the command object, not in the game state). -/
def MoveCommand.execute (cmd : MoveCommand) (state : GameState) :
    GameState × MoveCommand :=
  let r := cmd.calculate_path state
  match r.1 with
  | some p =>
    match p.getLast? with
    | some final =>
      ({ state with
          units_by_id := set_unit_coords state.units_by_id cmd.unit_id final.1 final.2 },
        r.2)
    | none => (state, r.2)
  | none => (state, r.2)

/-! ## Concrete state used by the move-command theorems -/

/-- A two-hex plain board. -/
def moveBoard : Board :=
  ⟨[((0, 0), { col := 0, row := 0, terrain := "plain" }),
    ((0, 1), { col := 0, row := 1, terrain := "plain" })]⟩

/-- A tank at `(0, 0)`. -/
def moveUnit : Unit := .mk "u1" "tank" "P1" 0 0 none none [] false false

/-- Game state holding `moveUnit` on `moveBoard` at mid tide. -/
def moveState : GameState :=
  { board := moveBoard
    tide_state := "mid"
    units_by_id := [("u1", moveUnit)]
    players := []
    unit_types_data :=
      [("tank", { id := "tank", can_enter := ["plain", "swamp", "reef", "mountain", "sea"] })] }

/-- A move command sending `u1` to `(0, 1)`. -/
def moveCmd : MoveCommand := { unit_id := "u1", dest_col := 0, dest_row := 1 }

/-! ## Concrete states used by the tide-effect theorems -/

/-- An attack boat standing at `(0, 0)` with its neutralized flag raised,
in a game state whose board has no hexes (so the boat's coordinates resolve
to no hex) at high tide. -/
def offBoardBoat : Unit := .mk "b2" "attack_boat" "P1" 0 0 none none [] false true

/-- Game state holding `offBoardBoat` on an empty board at high tide. -/
def offBoardBoatState : GameState :=
  { board := ⟨[]⟩
    tide_state := "high"
    units_by_id := [("b2", offBoardBoat)]
    players := []
    unit_types_data := [] }

/-- A single-swamp-hex board. -/
def swampBoard : Board := ⟨[((0, 0), { col := 0, row := 0, terrain := "swamp" })]⟩

/-- An attack boat on the swamp hex, not yet neutralized. -/
def swampBoat : Unit := .mk "b1" "attack_boat" "P1" 0 0 none none [] false false

/-- Game state holding `swampBoat` on `swampBoard` at high tide. -/
def swampBoatState : GameState :=
  { board := swampBoard
    tide_state := "high"
    units_by_id := [("b1", swampBoat)]
    players := []
    unit_types_data := [] }

end FMP

/-! ## Theorems -/

/-- Floor division by the positive constant 2 agrees with Euclidean division,
so `omega` can reason about the Python `// 2`. -/
theorem fdiv_two_eq_ediv (a : Int) : a.fdiv 2 = a / 2 :=
  Int.fdiv_eq_ediv a (by norm_num)

/-- **C2.** For every pair of integers `(col, row)`, converting offset
coordinates to axial with `_oddq_to_axial` and back with `_axial_to_oddq`
yields exactly `(col, row)` again, and conversely for every axial pair;
likewise `axial_to_cube` / `cube_to_axial` of `b_01.py` are mutual inverses.
The conversions are two-way deterministic mappings over all integers,
including negative ones. -/
theorem C2_offset_axial_round_trip :
    (∀ col row : Int,
        FMP.axial_to_oddq (FMP.oddq_to_axial col row).1 (FMP.oddq_to_axial col row).2
          = (col, row)) ∧
    (∀ q r : Int,
        FMP.oddq_to_axial (FMP.axial_to_oddq q r).1 (FMP.axial_to_oddq q r).2
          = (q, r)) ∧
    (∀ q r : Int,
        FMP.cube_to_axial (FMP.axial_to_cube q r).1 (FMP.axial_to_cube q r).2.1
            (FMP.axial_to_cube q r).2.2
          = (q, r)) ∧
    (∀ x z : Int,
        FMP.axial_to_cube (FMP.cube_to_axial x (-x - z) z).1
            (FMP.cube_to_axial x (-x - z) z).2
          = (x, -x - z, z)) := by
  refine ⟨?_, ?_, ?_, ?_⟩ <;>
    · intro a b
      simp only [FMP.axial_to_oddq, FMP.oddq_to_axial, FMP.axial_to_cube,
        FMP.cube_to_axial, fdiv_two_eq_ediv, Prod.mk.injEq, true_and]
      omega

/-- **C3.** `effective_terrain` is a pure function of the hex's stored
terrain and the tide value: for stored terrain `"swamp"` or `"reef"` it
returns `"plain"` at low tide and `"sea"` at high tide; for every other
stored terrain, and for every tide other than low/high (in particular
`"mid"`), it returns the stored terrain unchanged.  (Purity is inherent: the
embedding is a function of exactly these two arguments.) -/
theorem C3_effective_terrain_table (h : FMP.Hex) (tide : String) :
    FMP.Board.effective_terrain (some h) tide =
      if h.terrain = "swamp" ∨ h.terrain = "reef" then
        if tide = "low" then "plain"
        else if tide = "high" then "sea"
        else h.terrain
      else h.terrain := by
  simp only [FMP.Board.effective_terrain]
  split_ifs <;> simp_all

/-- **C3 witness.** The four example evaluations listed in the spec. -/
theorem C3_effective_terrain_table_witness :
    FMP.Board.effective_terrain (some ⟨0, 0, "swamp", false, none, none, 0⟩) "low" = "plain" ∧
    FMP.Board.effective_terrain (some ⟨0, 0, "swamp", false, none, none, 0⟩) "high" = "sea" ∧
    FMP.Board.effective_terrain (some ⟨0, 0, "swamp", false, none, none, 0⟩) "mid" = "swamp" ∧
    FMP.Board.effective_terrain (some ⟨0, 0, "sea", false, none, none, 0⟩) "low" = "sea" := by
  refine ⟨?_, ?_, ?_, ?_⟩ <;>
    simpa using C3_effective_terrain_table ⟨0, 0, _, false, none, none, 0⟩ _

/-- The pod loop of `Board.place_freighter` (`src/board.py`) keeps exactly
the in-range direction indices, in order, and never fails. -/
theorem place_pods_eq (bq br : Int) (l : List Int) :
    FMP.place_pods bq br l =
      (l.filter (fun i => decide (0 ≤ i ∧ i < 6))).map
        (fun i =>
          FMP.axial_to_oddq (bq + (FMP.AXIAL_DIRECTIONS.getD i.toNat (0, 0)).1)
            (br + (FMP.AXIAL_DIRECTIONS.getD i.toNat (0, 0)).2)) := by
  induction l with
  | nil => rfl
  | cons i rest ih =>
    by_cases hv : 0 ≤ i ∧ i < 6
    · obtain ⟨h0, h6⟩ := hv
      interval_cases i <;>
        simp [FMP.place_pods, FMP.AXIAL_DIRECTIONS, ih, List.filter_cons]
    · simp [FMP.place_pods, hv, ih, List.filter_cons]

/-- **C8.** For every player state whose spending pool was established by
`prepare_for_new_turn` (so the transient total equals base plus banked, an
invariant that `spend_ap` itself preserves) and every non-negative cost,
`spend_ap` returns `false` and leaves the player state completely unchanged
when the AP spent so far plus the cost exceeds the total spendable pool
(base + banked); otherwise it returns `true` and increases the spent AP by
exactly the cost (and changes nothing else). -/
theorem C8_spend_ap_checks_pool (p : FMP.Player) (cost : Int)
    (hprep : p.total_ap_for_spending_this_turn
      = p.current_turn_base_ap + p.banked_ap_at_start_of_actions)
    (_hcost : 0 ≤ cost) :
    (p.action_points_spent_this_turn + cost >
        p.current_turn_base_ap + p.banked_ap_at_start_of_actions →
      p.spend_ap cost = (false, p)) ∧
    (p.action_points_spent_this_turn + cost ≤
        p.current_turn_base_ap + p.banked_ap_at_start_of_actions →
      p.spend_ap cost =
        (true, { p with action_points_spent_this_turn :=
                          p.action_points_spent_this_turn + cost })) := by
  constructor <;> intro h <;>
    simp only [FMP.Player.spend_ap, FMP.Player.can_spend_ap, ge_iff_le] <;>
    rw [hprep] <;>
    [rw [if_neg]; rw [if_pos]] <;>
    simp <;> omega

/-- **C8 witness.** The spec scenario: `prepareForNewTurn(10)` with 0 banked,
then spending 12 fails with no state change, while spending 7 succeeds. -/
theorem C8_spend_ap_checks_pool_witness :
    (let p0 : FMP.Player := { id := "P1", name := "Player 1", color := "red" }
     let p := p0.prepare_for_new_turn 10
     (p.total_ap_for_spending_this_turn
        = p.current_turn_base_ap + p.banked_ap_at_start_of_actions) ∧
     (0 ≤ (12 : Int)) ∧
     ((p.action_points_spent_this_turn + 12 >
          p.current_turn_base_ap + p.banked_ap_at_start_of_actions →
        p.spend_ap 12 = (false, p)) ∧
      (p.action_points_spent_this_turn + 12 ≤
          p.current_turn_base_ap + p.banked_ap_at_start_of_actions →
        p.spend_ap 12 =
          (true, { p with action_points_spent_this_turn :=
                            p.action_points_spent_this_turn + 12 }))) ∧
     (p.spend_ap 12).1 = false ∧ (p.spend_ap 12).2 = p ∧
     (p.spend_ap 7).1 = true) := by
  refine ⟨rfl, by norm_num, C8_spend_ap_checks_pool _ 12 rfl (by norm_num), ?_, ?_, ?_⟩ <;> rfl

/-- **C9.** For every player state, `end_turn_banking_ap` sets the banked AP
to a value determined solely by `unspent = total spendable − spent`, via the
step function `unspent ≥ 10 → 10`, `unspent ≥ 5 → 5`, otherwise `0` (the
cap at `MAX_BANKED_AP = 10` never bites since the step value is at most 10).
The right-hand side does not mention the previous `action_points_banked`:
the new bank replaces, and is never added to, the previous banked amount —
in particular at the boundary values `unspent = 4, 5, 9, 10`. -/
theorem C9_end_turn_banking_step (p : FMP.Player) :
    (p.end_turn_banking_ap).action_points_banked =
      (if p.total_ap_for_spending_this_turn - p.action_points_spent_this_turn ≥ 10 then 10
       else if p.total_ap_for_spending_this_turn - p.action_points_spent_this_turn ≥ 5 then 5
       else 0) := by
  simp only [FMP.Player.end_turn_banking_ap, FMP.MAX_BANKED_AP]
  split_ifs <;> norm_num

/-- **C7 counterexample.** A fixed turn *can* reduce the future deck: when
the fixed turn is also a reshuffle-trigger turn at or after the setup turn,
the reshuffle excludes the representative current card by id, and with a
small card set the new future deck is smaller than before.  Here a 3-card
deck with fixed turn 5 of type `"low"`, reshuffle turn 5, and a full future
deck shrinks from 3 to 2 future cards (`id` is a legitimate outcome of
`random.shuffle`, and the pile sizes are the same for every permutation). -/
theorem C7_counterexample_fixed_turn_can_shrink_future :
    (FMP.TideDeck.advance_turn_tide id
        { all_cards_definitions :=
            [⟨"t1", "low", "Low 1"⟩, ⟨"t2", "normal", "Normal 1"⟩, ⟨"t3", "high", "High 1"⟩]
          fixed_turns := [(5, "low")]
          reshuffle_turns := [5]
          future_deck :=
            [⟨"t1", "low", "Low 1"⟩, ⟨"t2", "normal", "Normal 1"⟩, ⟨"t3", "high", "High 1"⟩] }
        5).future_deck.length = 2 ∧
    ([⟨"t1", "low", "Low 1"⟩, ⟨"t2", "normal", "Normal 1"⟩,
        (⟨"t3", "high", "High 1"⟩ : FMP.TideCard)].length = 3) := by
  exact ⟨rfl, rfl⟩

/-- **C7 (amended).** For every deck state and every turn number listed in
`fixed_turns`, `advance_turn_tide` does not reduce the size of the future
deck — *provided* the turn does not also trigger a reshuffle at or after the
setup turn (see `C7_counterexample_fixed_turn_can_shrink_future` for why
that proviso is forced).  The fixed-turn card is a representative of the
configured type, not removed from any pile, and this holds for every
permutation `shuffle` that `random.shuffle` may produce. -/
theorem C7_amended_fixed_turn_preserves_future
    (shuffle : List FMP.TideCard → List FMP.TideCard) (d : FMP.TideDeck) (turn : Int)
    (hfix : ((d.fixed_turns.find? (fun p => p.1 = turn)).map (·.2)).isSome = true)
    (hnores : ¬(d.setup_deck_turn.getD 3 ≤ turn ∧ d.reshuffle_turns.contains turn = true)) :
    d.future_deck.length ≤ (d.advance_turn_tide shuffle turn).future_deck.length := by
  obtain ⟨ty, hty⟩ := Option.isSome_iff_exists.mp hfix
  by_cases h1 : turn = d.setup_deck_turn.getD 3 ∧ d.future_deck = []
  · simp [h1.2]
  · unfold FMP.TideDeck.advance_turn_tide
    dsimp only
    rw [if_neg h1]
    have tail_le : ∀ d3 : FMP.TideDeck,
        d3.future_deck = d.future_deck → d3.reshuffle_turns = d.reshuffle_turns →
        d.future_deck.length ≤
          (if turn ≥ d.setup_deck_turn.getD 3 then
            let d4 :=
              if d3.reshuffle_turns.contains turn = true then d3.reshuffle shuffle else d3
            match d4.future_deck, d4.reserve_pile with
            | [], r :: rs => { d4 with future_deck := [r], reserve_pile := rs }
            | _, _ => d4
          else d3).future_deck.length := by
      intro d3 hfut hres
      by_cases hge : turn ≥ d.setup_deck_turn.getD 3
      · have hcontains : d3.reshuffle_turns.contains turn = false := by
          rw [hres]
          by_contra hc
          exact hnores ⟨hge, by simpa using hc⟩
        rw [if_pos hge]
        simp only [hcontains, Bool.false_eq_true, if_false]
        split
        · rename_i hfd hrs
          rw [← hfut, hfd]
          simp
        · simp [hfut]
      · rw [if_neg hge]
        simp [hfut]
    rcases hcur : d.current_tide_card with _ | c
    · dsimp only
      simp only [FMP.TideDeck.get_tide_for_turn, hty]
      exact tail_le _ rfl rfl
    · dsimp only
      by_cases hdisc : turn - 1 > d.last_fixed_turn.getD 2
      · rw [if_pos hdisc]
        simp only [FMP.TideDeck.get_tide_for_turn]
        rw [hty]
        exact tail_le _ rfl rfl
      · rw [if_neg hdisc]
        simp only [FMP.TideDeck.get_tide_for_turn, hty]
        exact tail_le _ rfl rfl

/-- **C7 witness.** A concrete fixed turn (turn 1, before the setup turn,
not a reshuffle trigger) on a concrete deck, with the identity permutation. -/
theorem C7_amended_fixed_turn_preserves_future_witness :
    (let d : FMP.TideDeck :=
      { all_cards_definitions := [⟨"t1", "low", "Low 1"⟩]
        fixed_turns := [(1, "low")]
        future_deck := [⟨"t1", "low", "Low 1"⟩] }
     (((d.fixed_turns.find? (fun p => p.1 = (1 : Int))).map (·.2)).isSome = true) ∧
     ¬(d.setup_deck_turn.getD 3 ≤ (1 : Int) ∧ d.reshuffle_turns.contains 1 = true) ∧
     d.future_deck.length ≤ (d.advance_turn_tide id 1).future_deck.length) :=
  ⟨rfl, by decide,
    C7_amended_fixed_turn_preserves_future id _ 1 rfl (by decide)⟩

/-- **C1.** Evaluation of `a_star_pathfinding` at the failing input.  On
`staleBoard` — whose hexes are all plain and enterable by `plainUnit`, i.e.
a uniform-cost open grid per the claim's hypothesis, with start and goal on
the board — the search returns a path of 8 coordinates (7 steps), although
the axial-distance heuristic between start and goal is 6 and the board
contains the 6-step traversable chain `staleShortPath`.  The cause: when a
node's `g`-score improves while an entry for it is in the open set, the open
set membership check suppresses the re-push, the node keeps its stale (too
high) heap priority, and the goal is reached through a longer detour first —
so the returned step count does not equal the hex distance and the path is
not optimal. -/
theorem C1_astar_returns_suboptimal_path :
    FMP.a_star_pathfinding FMP.staleBoard (2, 5) (0, 0) FMP.plainUnit "mid"
        = some FMP.staleReturnedPath ∧
    FMP.staleReturnedPath.length = 8 ∧
    FMP._heuristic 2 5 0 0 FMP.staleBoard = 6 ∧
    (FMP.staleBoard.hexes.all (fun p =>
        decide (FMP.Board.effective_terrain (some p.2) "mid" ∈ FMP.plainUnit.can_enter)))
      = true ∧
    (FMP.staleBoard.get_hex 2 5).isSome = true ∧
    (FMP.staleBoard.get_hex 0 0).isSome = true ∧
    FMP.is_valid_path FMP.staleBoard FMP.plainUnit "mid" FMP.staleShortPath = true ∧
    FMP.staleShortPath.length = 7 ∧
    FMP.staleShortPath.head? = some (2, 5) ∧
    FMP.staleShortPath.getLast? = some (0, 0) := by
  refine ⟨?_, rfl, rfl, rfl, rfl, rfl, rfl, rfl, rfl, rfl⟩
  rfl

/-- **C4.** Evaluation of `a_star_pathfinding` at the failing input: when
`start == goal`, the first popped node is the goal and the function returns
`[start]` *before ever checking that the coordinate resolves to a board
hex* — here on a board with no hexes at all (the unit type and tide are
irrelevant: the computation never reads them) — instead of returning the
absent result the claim requires whenever start or goal is missing from the
board. -/
theorem C4_astar_offboard_start_goal_returns_path :
    FMP.a_star_pathfinding ⟨[]⟩ (0, 0) (0, 0) FMP.plainUnit "mid" = some [(0, 0)] := rfl

/-- Looking up a key after mapping a function over the values of a
string-keyed association list applies the function to the looked-up value. -/
theorem lookupS_map_snd {α β : Type} (f : α → β) (m : List (String × α)) (k : String) :
    FMP.lookupS (m.map (fun p => (p.1, f p.2))) k = (FMP.lookupS m k).map f := by
  induction m with
  | nil => rfl
  | cons p rest ih =>
    by_cases hk : p.1 = k
    · simp [FMP.lookupS, List.find?_cons_of_pos, hk]
    · simpa [FMP.lookupS, List.find?_cons_of_neg, hk] using ih

/-- **C6 counterexample.** The claim demands that for every attack-boat
position/tide combination other than (stored swamp, high tide) the
neutralized flag be *explicitly set to false*.  For an attack boat whose
coordinates do not resolve to a board hex, `apply_tide_effects` leaves the
flag untouched: a previously raised flag stays `true`. -/
theorem C6_counterexample_offboard_boat_keeps_flag :
    (FMP.Board.apply_tide_effects FMP.offBoardBoatState.board FMP.offBoardBoatState).get_unit "b2"
        = some FMP.offBoardBoat ∧
    FMP.offBoardBoat.is_neutralised = true :=
  ⟨rfl, rfl⟩

/-- **C6 (amended).** `apply_tide_effects` recomputes the neutralized flag of
every attack boat *that stands on a board hex*: the flag becomes true exactly
when the hex's stored terrain is `"swamp"` and the tide is `"high"`, and is
explicitly reset to false for every other on-board position/tide combination
(the effect is idempotent and fully recomputed each call).  Attack boats
whose coordinates resolve to no hex are left unchanged (beyond the
initialisation of a missing flag attribute to `false`), and units of every
other type are never changed by the rule. -/
theorem C6_amended_tide_neutralisation (gs : FMP.GameState) (uid : String) (u : FMP.Unit)
    (hu : FMP.lookupS gs.units_by_id uid = some u) :
    ∃ u', FMP.lookupS ((FMP.Board.apply_tide_effects gs.board gs).units_by_id) uid = some u' ∧
      (u.unit_type_id = "attack_boat" →
        ∀ hx, gs.board.get_hex u.col u.row = some hx →
          u' = u.withNeutralised
                (if hx.terrain = "swamp" ∧ gs.tide_state = "high" then true else false)) ∧
      (u.unit_type_id = "attack_boat" → gs.board.get_hex u.col u.row = none → u' = u) ∧
      (u.unit_type_id ≠ "attack_boat" → u' = u) := by
  refine ⟨FMP.tide_effect_unit gs.board gs.tide_state u, ?_, ?_, ?_, ?_⟩
  · show FMP.lookupS (gs.units_by_id.map
        (fun p => (p.1, FMP.tide_effect_unit gs.board gs.tide_state p.2))) uid = _
    rw [lookupS_map_snd, hu]
    rfl
  · intro hab hx hhx
    simp [FMP.tide_effect_unit, hab, hhx]
  · intro hab hnone
    simp [FMP.tide_effect_unit, hab, hnone]
  · intro hne
    simp [FMP.tide_effect_unit, hne]

/-- **C6 witness.** The spec scenario: an attack boat standing on a stored
swamp hex at high tide; its flag is recomputed from the rule (and indeed
resolves to `true` there). -/
theorem C6_amended_tide_neutralisation_witness :
    (FMP.lookupS FMP.swampBoatState.units_by_id "b1" = some FMP.swampBoat) ∧
    (∃ u', FMP.lookupS
          ((FMP.Board.apply_tide_effects FMP.swampBoatState.board
              FMP.swampBoatState).units_by_id) "b1" = some u' ∧
      (FMP.swampBoat.unit_type_id = "attack_boat" →
        ∀ hx, FMP.swampBoatState.board.get_hex FMP.swampBoat.col FMP.swampBoat.row = some hx →
          u' = FMP.swampBoat.withNeutralised
                (if hx.terrain = "swamp" ∧ FMP.swampBoatState.tide_state = "high" then true
                 else false)) ∧
      (FMP.swampBoat.unit_type_id = "attack_boat" →
        FMP.swampBoatState.board.get_hex FMP.swampBoat.col FMP.swampBoat.row = none →
          u' = FMP.swampBoat) ∧
      (FMP.swampBoat.unit_type_id ≠ "attack_boat" → u' = FMP.swampBoat)) :=
  ⟨rfl, C6_amended_tide_neutralisation FMP.swampBoatState "b1" FMP.swampBoat rfl⟩

/-- Looking up a key in an association list after conditionally rewriting
the value stored under `uid` returns the rewritten value for `uid` and the
original value for every other key. -/
theorem lookupS_cons {α : Type} (a : String) (v : α) (t : List (String × α)) (k : String) :
    FMP.lookupS ((a, v) :: t) k = if a = k then some v else FMP.lookupS t k := by
  by_cases h : a = k
  · simp [FMP.lookupS, List.find?_cons_of_pos, h]
  · simp [FMP.lookupS, List.find?_cons_of_neg, h]

theorem lookupS_set_unit_coords (m : List (String × FMP.Unit)) (uid : String)
    (c r : Int) (k : String) :
    FMP.lookupS (FMP.set_unit_coords m uid c r) k =
      if k = uid then (FMP.lookupS m k).map (fun u => u.withColRow c r)
      else FMP.lookupS m k := by
  induction m with
  | nil => simp [FMP.lookupS, FMP.set_unit_coords]
  | cons p rest ih =>
    obtain ⟨a, v⟩ := p
    show FMP.lookupS ((if a = uid then (a, FMP.Unit.withColRow v c r) else (a, v))
        :: FMP.set_unit_coords rest uid c r) k = _
    by_cases hp : a = uid
    · rw [if_pos hp, lookupS_cons]
      by_cases hk : a = k
      · have hku : k = uid := hk.symm.trans hp
        rw [if_pos hk, if_pos hku, lookupS_cons, if_pos hk]
        rfl
      · have hku : ¬k = uid := fun h => hk (hp.trans h.symm)
        rw [if_neg hk, ih, if_neg hku, lookupS_cons, if_neg hk, if_neg hku]
    · rw [if_neg hp, lookupS_cons]
      by_cases hk : a = k
      · have hku : ¬k = uid := fun h => hp (hk.trans h)
        rw [if_pos hk, if_neg hku, lookupS_cons, if_pos hk]
      · rw [if_neg hk, ih, lookupS_cons, if_neg hk]

/-- **C10.** For every game state in which the move command's unit id is
present, `execute` either leaves the game state entirely unchanged — and
then `_calculate_path` produced no usable path (`none`, or an empty cached
path with no final coordinate) — or changes exactly the `col`/`row` of the
unit named by the command, setting them to the path's final coordinate: the
board, the tide state, the turn number, the players, the unit-type table and
every other unit are unchanged.  (The path cache updated by `execute` lives
on the command object, not in the game state.) -/
theorem C10_move_execute_frame (cmd : FMP.MoveCommand) (s : FMP.GameState) (u : FMP.Unit)
    (hu : s.get_unit cmd.unit_id = some u) :
    ((cmd.execute s).1 = s ∧
      ((cmd.calculate_path s).1 = none ∨ (cmd.calculate_path s).1 = some [])) ∨
    (∃ p final, (cmd.calculate_path s).1 = some p ∧ p.getLast? = some final ∧
      (cmd.execute s).1.board = s.board ∧
      (cmd.execute s).1.tide_state = s.tide_state ∧
      (cmd.execute s).1.turn_number = s.turn_number ∧
      (cmd.execute s).1.players = s.players ∧
      (cmd.execute s).1.unit_types_data = s.unit_types_data ∧
      (∀ uid', uid' ≠ cmd.unit_id →
        FMP.lookupS (cmd.execute s).1.units_by_id uid' = FMP.lookupS s.units_by_id uid') ∧
      (cmd.execute s).1.get_unit cmd.unit_id = some (u.withColRow final.1 final.2)) := by
  rcases hp : (cmd.calculate_path s).1 with _ | p
  · left
    refine ⟨?_, Or.inl rfl⟩
    simp only [FMP.MoveCommand.execute]
    rw [hp]
  · rcases hl : p.getLast? with _ | final
    · left
      rw [List.getLast?_eq_none_iff] at hl
      subst hl
      refine ⟨?_, Or.inr rfl⟩
      simp only [FMP.MoveCommand.execute]
      rw [hp]
      rfl
    · right
      refine ⟨p, final, rfl, hl, ?_⟩
      have hex : (cmd.execute s).1 =
          { s with units_by_id := FMP.set_unit_coords s.units_by_id cmd.unit_id final.1 final.2 } := by
        simp only [FMP.MoveCommand.execute]
        rw [hp]
        dsimp only
        rw [hl]
      rw [hex]
      refine ⟨rfl, rfl, rfl, rfl, rfl, ?_, ?_⟩
      · intro uid' hne
        show FMP.lookupS (FMP.set_unit_coords s.units_by_id cmd.unit_id final.1 final.2) uid' = _
        rw [lookupS_set_unit_coords, if_neg hne]
      · show FMP.lookupS (FMP.set_unit_coords s.units_by_id cmd.unit_id final.1 final.2)
            cmd.unit_id = _
        rw [lookupS_set_unit_coords, if_pos rfl]
        rw [show FMP.lookupS s.units_by_id cmd.unit_id = some u from hu]
        rfl

/-- **C10 witness.** A concrete move on a two-hex board: the tank at
`(0, 0)` is sent to `(0, 1)`; the hypotheses hold and the frame property is
obtained by applying the theorem there. -/
theorem C10_move_execute_frame_witness :
    (FMP.moveState.get_unit FMP.moveCmd.unit_id = some FMP.moveUnit) ∧
    (((FMP.moveCmd.execute FMP.moveState).1 = FMP.moveState ∧
       ((FMP.moveCmd.calculate_path FMP.moveState).1 = none ∨
        (FMP.moveCmd.calculate_path FMP.moveState).1 = some [])) ∨
     (∃ p final, (FMP.moveCmd.calculate_path FMP.moveState).1 = some p ∧
        p.getLast? = some final ∧
        (FMP.moveCmd.execute FMP.moveState).1.board = FMP.moveState.board ∧
        (FMP.moveCmd.execute FMP.moveState).1.tide_state = FMP.moveState.tide_state ∧
        (FMP.moveCmd.execute FMP.moveState).1.turn_number = FMP.moveState.turn_number ∧
        (FMP.moveCmd.execute FMP.moveState).1.players = FMP.moveState.players ∧
        (FMP.moveCmd.execute FMP.moveState).1.unit_types_data = FMP.moveState.unit_types_data ∧
        (∀ uid', uid' ≠ FMP.moveCmd.unit_id →
          FMP.lookupS (FMP.moveCmd.execute FMP.moveState).1.units_by_id uid' =
            FMP.lookupS FMP.moveState.units_by_id uid') ∧
        (FMP.moveCmd.execute FMP.moveState).1.get_unit FMP.moveCmd.unit_id =
          some (FMP.moveUnit.withColRow final.1 final.2))) :=
  ⟨rfl, C10_move_execute_frame FMP.moveCmd FMP.moveState FMP.moveUnit rfl⟩

/-- **C5 counterexample.** The claim states that `place_freighter` never
raises for an angle that is not one of the six valid multiples of 60°.  The
`b_01.py` variant of `Board.place_freighter` (which is the variant taking
*angles*) evaluates `ANGLE_TO_INDEX[ang]`, which raises `KeyError` for the
angle 90 — modelled here as the `none` result — instead of failing soft. -/
theorem C5_counterexample_b01_raises :
    FMP.B01.place_freighter 0 0 [90] = none := rfl

/-- **C5 (amended).** The `board.py` variant of `place_freighter` (which
takes direction indices) indeed never raises: for every bubble coordinate
and every index list it totally returns the bubble coordinate followed by
one pod per *valid* index among the first three, silently skipping (with a
log) every out-of-range index, leaving validation to the caller.  The
`b_01.py` variant, by contrast, raises `KeyError` on an invalid angle
(see `C5_counterexample_b01_raises`). -/
theorem C5_amended_board_place_freighter_fails_soft (b : FMP.Board)
    (center_col center_row : Int) (idxs : List Int) :
    FMP.Board.place_freighter b center_col center_row idxs
      = (center_col, center_row) ::
          ((idxs.take 3).filter (fun i => decide (0 ≤ i ∧ i < 6))).map
            (fun i =>
              FMP.axial_to_oddq
                ((FMP.oddq_to_axial center_col center_row).1
                  + (FMP.AXIAL_DIRECTIONS.getD i.toNat (0, 0)).1)
                ((FMP.oddq_to_axial center_col center_row).2
                  + (FMP.AXIAL_DIRECTIONS.getD i.toNat (0, 0)).2)) := by
  simp only [FMP.Board.place_freighter, place_pods_eq]
